import Mathlib

/-
  Verification of the moderation admin layer (src/moderation/admin.py).

  The excerpt under verification is the Django admin integration of a
  moderation workflow: message generation, bulk approve/reject/set-pending
  actions, the moderated-object change view with its diff computation and
  redirect behaviour, the restricted status filter registration, and the
  default queryset restriction.

  The per-entity transition methods (ModeratedObject.approve, reject,
  set_as_pending) and the numeric status constants live in
  moderation/models.py, which is not part of the excerpt; they are modelled
  from the specification where needed, and each such definition says so in
  its doc comment.
-/

namespace Moderation

/-- Modelled from the spec: the numeric status constants are declared in
moderation/models.py, which is not in the excerpt.  The spec only requires
three distinct statuses Pending, Approved, Rejected; we fix distinct
integers for them. -/
def MODERATION_STATUS_REJECTED : Int := 0

/-- Modelled from the spec: see MODERATION_STATUS_REJECTED. -/
def MODERATION_STATUS_APPROVED : Int := 1

/-- Modelled from the spec: see MODERATION_STATUS_REJECTED. -/
def MODERATION_STATUS_PENDING : Int := 2

/-- Modelled from the spec: moderation/models.py declares two moderation
states, Normal (ready) and Draft; we fix distinct integers for them. -/
def MODERATION_READY_STATE : Int := 0

/-- Modelled from the spec: see MODERATION_READY_STATE. -/
def MODERATION_DRAFT_STATE : Int := 1

/-- Text of the Pending + visible-until-rejected message in
ModerationAdmin.get_moderation_message. -/
def pendingVisibleMsg : String :=
  "Object is viewable on site, it will be removed if moderator rejects it"

/-- Text of the Pending + hidden message in
ModerationAdmin.get_moderation_message. -/
def pendingHiddenMsg : String :=
  "Object is not viewable on site, it will be visible if moderator accepts it"

/-- Text of the Rejected message in ModerationAdmin.get_moderation_message;
the reason is interpolated at the end (Python percent-formatting of
"reason: %s"). -/
def rejectedMsg (reason : String) : String :=
  "Object has been rejected by moderator, reason: " ++ reason

/-- Text of the Approved message in ModerationAdmin.get_moderation_message. -/
def approvedMsg : String :=
  "Object has been approved by moderator and is visible on site"

/-- Text of the default message in ModerationAdmin.get_moderation_message
when no moderation status is given (object not registered with the
moderation system). -/
def notRegisteredMsg : String :=
  "This object is not registered with the moderation system."

/-- Embedding of ModerationAdmin.get_moderation_message.  The Python method
takes moderation_status defaulting to None (modelled as Option Int), a
reason and the visible_until_rejected flag, and falls off the end (returning
Python None, modelled as Option.none) when the status is neither Pending,
Rejected, Approved nor None. -/
def get_moderation_message (moderation_status : Option Int) (reason : String)
    (visible_until_rejected : Bool) : Option String :=
  if moderation_status = some MODERATION_STATUS_PENDING then
    if visible_until_rejected then some pendingVisibleMsg
    else some pendingHiddenMsg
  else if moderation_status = some MODERATION_STATUS_REJECTED then
    some (rejectedMsg reason)
  else if moderation_status = some MODERATION_STATUS_APPROVED then
    some approvedMsg
  else if moderation_status = none then
    some notRegisteredMsg
  else
    none

/-- A domain object under moderation, opaque except for its primary key. -/
structure DomainObject where
  pk : Nat
deriving DecidableEq, Repr

/-- A row of the ModeratedObject model, with the fields the admin layer
reads and writes: status, state, reason, moderator, the serialized changed
object, and the live object that get_object_for_this_type fetches. -/
structure ModeratedEntity where
  pk : Nat
  moderation_status : Int
  moderation_state : Int
  moderation_reason : String
  moderated_by : Option String
  changed_object : DomainObject
  object_for_this_type : DomainObject
deriving DecidableEq, Repr

/-- The error raised by the moderation transitions: a missing required
reason on reject raises ValidationError. -/
inductive ModerationError where
  | validationError (msg : String)
deriving DecidableEq, Repr

/-- Modelled from the spec: ModeratedObject.approve lives in
moderation/models.py, not in the excerpt.  Per the spec, approve(actor,
reason="") is always valid, sets status to Approved and the moderator to the
actor, and produces a human-readable confirmation message. -/
def ModeratedEntity.approve (obj : ModeratedEntity) (moderated_by : String)
    (reason : String) : ModeratedEntity × String :=
  ({ obj with
      moderation_status := MODERATION_STATUS_APPROVED
      moderation_reason := reason
      moderated_by := some moderated_by },
   approvedMsg)

/-- Modelled from the spec: ModeratedObject.reject lives in
moderation/models.py, not in the excerpt.  Per the spec, reject(actor,
reason) fails with ValidationError if the reason is empty, and otherwise
sets status to Rejected, the reason, and the moderator, producing a
confirmation message.  A caller that passes no reason passes the empty
default. -/
def ModeratedEntity.reject (obj : ModeratedEntity) (moderated_by : String)
    (reason : String) : Except ModerationError (ModeratedEntity × String) :=
  if reason = "" then
    .error (.validationError ("reason is required on reject"))
  else
    .ok ({ obj with
            moderation_status := MODERATION_STATUS_REJECTED
            moderation_reason := reason
            moderated_by := some moderated_by },
         rejectedMsg reason)

/-- Modelled from the spec: ModeratedObject.set_as_pending lives in
moderation/models.py, not in the excerpt.  Per the spec, setPending resets
the status to Pending and is allowed from any state. -/
def ModeratedEntity.set_as_pending (obj : ModeratedEntity)
    (moderated_by : String) : ModeratedEntity :=
  { obj with moderation_status := MODERATION_STATUS_PENDING }

/-- Embedding of the bulk action approve_objects: for each object of the
queryset in order, call obj.approve(moderated_by=request.user) and add the
returned moderation message.  Returns the transitioned entities and the
added messages. -/
def approve_objects (user : String) (queryset : List ModeratedEntity) :
    List ModeratedEntity × List String :=
  match queryset with
  | [] => ([], [])
  | obj :: rest =>
      let step := obj.approve user ""
      let tail := approve_objects user rest
      (step.1 :: tail.1, step.2 :: tail.2)

/-- Embedding of the bulk action reject_objects: for each object of the
queryset in order, call obj.reject(moderated_by=request.user) — passing no
reason — and add the returned moderation message.  A ValidationError raised
by one call propagates out of the for loop: the result carries the entities
transitioned before the failure, the messages added before the failure, and
the propagating error if any. -/
def reject_objects (user : String) (queryset : List ModeratedEntity) :
    List ModeratedEntity × List String × Option ModerationError :=
  match queryset with
  | [] => ([], [], none)
  | obj :: rest =>
      match obj.reject user "" with
      | .error e => ([], [], some e)
      | .ok step =>
          let tail := reject_objects user rest
          (step.1 :: tail.1, step.2 :: tail.2.1, tail.2.2)

/-- Embedding of the bulk action set_objects_as_pending: for each object of
the queryset in order, call obj.set_as_pending(moderated_by=request.user);
no messages are added. -/
def set_objects_as_pending (user : String) (queryset : List ModeratedEntity) :
    List ModeratedEntity :=
  queryset.map (fun obj => obj.set_as_pending user)

/-- Embedding of ModeratedObjectAdmin.queryset: starting from the base
queryset, exclude the entities whose moderation_status is Approved, then
exclude the entities whose moderation_state is Draft. -/
def ModeratedObjectAdmin.queryset (qs : List ModeratedEntity) :
    List ModeratedEntity :=
  let qs1 := qs.filter
    (fun o => !(o.moderation_status == MODERATION_STATUS_APPROVED))
  qs1.filter (fun o => !(o.moderation_state == MODERATION_DRAFT_STATE))

/-- Embedding of ModeratedObjectAdmin.get_actions: take the action mapping
the framework returns and delete the entry keyed 'delete_selected' if it
exists (the KeyError when it does not is swallowed).  The mapping is a
keyed list; Python dict deletion removes the key and keeps every other
entry in order. -/
def ModeratedObjectAdmin.get_actions (actions : List (String × String)) :
    List (String × String) :=
  actions.filter (fun kv => !(kv.1 == "delete_selected"))

/-- The moderator policy registered for a domain type: whether the
visible-until-rejected rule applies and which fields are excluded from
diffing. -/
structure Moderator where
  visible_until_rejected : Bool
  fields_exclude : List String
deriving DecidableEq, Repr

/-- The uncaught exception of ModerationAdmin.send_message: the lookup of
the domain object itself (self.model.unmoderated_objects.get) raises the
model's DoesNotExist, which the except clause for
ModeratedObject.DoesNotExist does not catch. -/
inductive LookupError where
  | modelDoesNotExist
deriving DecidableEq, Repr

/-- Embedding of ModerationAdmin.send_message: fetch the domain object by
id, fetch its ModeratedObject record, and message the user with
get_moderation_message of its status, reason and policy flag; when the
ModeratedObject record does not exist, the ModeratedObject.DoesNotExist is
caught and get_moderation_message with all defaults (no status) is
delivered instead.  The collaborators are passed as lookup functions:
unmoderated_get for self.model.unmoderated_objects.get,
get_for_instance for ModeratedObject.objects.get_for_instance, and
get_moderator for moderated_obj.moderator.  The result is the message
handed to message_user. -/
def send_message (unmoderated_get : Nat → Option DomainObject)
    (get_for_instance : DomainObject → Option ModeratedEntity)
    (get_moderator : ModeratedEntity → Moderator)
    (object_id : Nat) : Except LookupError (Option String) :=
  match unmoderated_get object_id with
  | none => .error .modelDoesNotExist
  | some obj =>
      match get_for_instance obj with
      | none => .ok (get_moderation_message none ("") false)
      | some moderated_obj =>
          let moderator := get_moderator moderated_obj
          .ok (get_moderation_message (some moderated_obj.moderation_status)
                moderated_obj.moderation_reason
                moderator.visible_until_rejected)

/-- The POST data of a request to the moderated-object change view: form
validity, whether the approve or the reject button is present, and the
cleaned moderation_reason field. -/
structure PostData where
  valid : Bool
  has_approve : Bool
  has_reject : Bool
  moderation_reason : String
deriving DecidableEq, Repr

/-- A request to the moderated-object change view: the POST data when the
request is a POST (none otherwise), the acting user, and whether the user
has change permission. -/
structure Request where
  post : Option PostData
  user : String
  has_change_permission : Bool
deriving DecidableEq, Repr

/-- The arguments handed to get_changes_between_models in
ModeratedObjectAdmin.change_view: the old object, the new object, and the
excluded field names. -/
structure ChangesCall where
  old_object : DomainObject
  new_object : DomainObject
  excluded : List String
deriving DecidableEq, Repr

/-- The response of the moderated-object change view: either a redirect to
a url, or the rendered change form (the super().change_view call). -/
inductive AdminResponse where
  | redirect (url : String)
  | rendered
deriving DecidableEq, Repr

/-- Whether an AdminResponse is a redirect. -/
def AdminResponse.isRedirect : AdminResponse → Bool
  | .redirect _ => true
  | .rendered => false

/-- Embedding of ModeratedObjectAdmin.response_change: redirect to '../'
when the user has change permission, to '../../../' otherwise. -/
def ModeratedObjectAdmin.response_change (request : Request) : AdminResponse :=
  if request.has_change_permission then .redirect ("../")
  else .redirect ("../../../")

/-- Embedding of the POST branch of ModeratedObjectAdmin.change_view.  On
a valid POST, 'approve' performs the approve, adds its message, and
returns response_change; 'reject' performs the reject, adds its message,
and falls through to render the change form — the reject branch has no
return statement, so no redirect happens there (a ValidationError raised
by reject propagates).  Every other path renders the change form. -/
def ModeratedObjectAdmin.handle_post (moderated_object : ModeratedEntity)
    (request : Request) :
    Except ModerationError (List String × AdminResponse) :=
  match request.post with
  | none => .ok ([], .rendered)
  | some postData =>
      if postData.valid then
        let reason := postData.moderation_reason
        if postData.has_approve then
          let step := moderated_object.approve request.user reason
          .ok ([step.2], ModeratedObjectAdmin.response_change request)
        else if postData.has_reject then
          match moderated_object.reject request.user reason with
          | .error e => .error e
          | .ok step => .ok ([step.2], .rendered)
        else .ok ([], .rendered)
      else .ok ([], .rendered)

/-- Embedding of the whole of ModeratedObjectAdmin.change_view: the diff
arguments are computed first and do not depend on the POST data, then the
POST branch runs.  With visible_until_rejected, old is the stored
changed_object and new is the live object fetched by
get_object_for_this_type; otherwise the other way round.
get_changes_between_models is called on (old, new,
moderator.fields_exclude); that call is the first component of the
result. -/
def ModeratedObjectAdmin.change_view (moderated_object : ModeratedEntity)
    (moderator : Moderator) (request : Request) :
    ChangesCall × Except ModerationError (List String × AdminResponse) :=
  let changed_object := moderated_object.changed_object
  let pair : DomainObject × DomainObject :=
    if moderator.visible_until_rejected then
      (changed_object, moderated_object.object_for_this_type)
    else
      (moderated_object.object_for_this_type, changed_object)
  (⟨pair.1, pair.2, moderator.fields_exclude⟩,
   ModeratedObjectAdmin.handle_post moderated_object request)

/-- A field of a model, opaque except for the attribute the restricted
status filter predicate reads with getattr(f, 'restricted_status_filter',
False): none models an absent attribute. -/
structure Field where
  restricted_status_filter : Option Bool
deriving DecidableEq, Repr

/-- The predicate registered with the restricted status filter:
lambda f: getattr(f, 'restricted_status_filter', False). -/
def restricted_filter_predicate (f : Field) : Bool :=
  f.restricted_status_filter.getD false

/-- An entry of the process-wide FilterSpec.filter_specs registry: a
predicate on fields paired with the name of the filter class to use. -/
structure FilterRegistryEntry where
  accepts : Field → Bool
  spec_name : String

/-- Embedding of the module-load statement
FilterSpec.filter_specs.insert(0, (lambda f: getattr(f,
'restricted_status_filter', False), RestrictedStatusFilterSpec)): insert
the restricted status filter entry at index 0 of the registry. -/
def register_restricted_status_filter
    (filter_specs : List FilterRegistryEntry) : List FilterRegistryEntry :=
  ⟨restricted_filter_predicate, "RestrictedStatusFilterSpec"⟩ :: filter_specs

/-- A sample entity used by the concrete counterexamples and witnesses. -/
def sampleEntity : ModeratedEntity :=
  { pk := 1
    moderation_status := MODERATION_STATUS_PENDING
    moderation_state := MODERATION_READY_STATE
    moderation_reason := ""
    moderated_by := none
    changed_object := ⟨10⟩
    object_for_this_type := ⟨10⟩ }

/-- Concrete POST data used by the C6 witness: a valid form whose POST
contains 'approve'. -/
def approvePost : PostData :=
  { valid := true
    has_approve := true
    has_reject := false
    moderation_reason := "" }

/-- Concrete request used by the C6 witness: a valid approve POST by a
user with change permission. -/
def approvePostRequest : Request :=
  { post := some approvePost
    user := "mod"
    has_change_permission := true }

/-- Concrete request used by the C6 counterexample: a valid reject POST
with a non-empty reason. -/
def rejectPostRequest : Request :=
  { post := some { valid := true
                   has_approve := false
                   has_reject := true
                   moderation_reason := "spam" }
    user := "mod"
    has_change_permission := true }

/-- C1: get_moderation_message is a pure function of (status, reason,
visible-until-rejected flag) with exactly the five defined outcomes:
Pending and visible gives the viewable-but-removable text, Pending and
hidden gives the hidden-until-accepted text, Rejected gives the rejection
text carrying the given reason, Approved gives the approved text, and an
absent status gives the fixed not-registered text. -/
theorem c1_get_moderation_message_cases (reason : String) (flag : Bool) :
    get_moderation_message (some MODERATION_STATUS_PENDING) reason true
      = some pendingVisibleMsg ∧
    get_moderation_message (some MODERATION_STATUS_PENDING) reason false
      = some pendingHiddenMsg ∧
    get_moderation_message (some MODERATION_STATUS_REJECTED) reason flag
      = some (rejectedMsg reason) ∧
    rejectedMsg reason
      = ("Object has been rejected by moderator, reason: " ++ reason) ∧
    get_moderation_message (some MODERATION_STATUS_APPROVED) reason flag
      = some approvedMsg ∧
    get_moderation_message none reason flag = some notRegisteredMsg :=
  ⟨rfl, rfl, rfl, rfl, rfl, rfl⟩

/-- C10: for a status value that is none of the three known constants and
is not absent, get_moderation_message falls off the end of the
if-elif chain and returns no message at all. -/
theorem c10_unknown_status_yields_none (s : Int) (reason : String)
    (flag : Bool) (h1 : s ≠ MODERATION_STATUS_PENDING)
    (h2 : s ≠ MODERATION_STATUS_REJECTED)
    (h3 : s ≠ MODERATION_STATUS_APPROVED) :
    get_moderation_message (some s) reason flag = none := by
  simp [get_moderation_message, h1, h2, h3]

/-- Witness for C10 at the concrete status value 99. -/
theorem c10_witness :
    (99 : Int) ≠ MODERATION_STATUS_PENDING ∧
    (99 : Int) ≠ MODERATION_STATUS_REJECTED ∧
    (99 : Int) ≠ MODERATION_STATUS_APPROVED ∧
    get_moderation_message (some 99) ("") false = none :=
  ⟨by decide, by decide, by decide,
   c10_unknown_status_yields_none 99 ("") false (by decide) (by decide)
     (by decide)⟩

/-- C2: every entity in the default moderated-object admin queryset has a
moderation_status other than Approved and a moderation_state other than
Draft. -/
theorem c2_queryset_excludes (qs : List ModeratedEntity)
    (e : ModeratedEntity) (h : e ∈ ModeratedObjectAdmin.queryset qs) :
    e.moderation_status ≠ MODERATION_STATUS_APPROVED ∧
    e.moderation_state ≠ MODERATION_DRAFT_STATE := by
  simp only [ModeratedObjectAdmin.queryset, List.mem_filter,
    Bool.not_eq_eq_eq_not, Bool.not_true, beq_eq_false_iff_ne, ne_eq] at h
  exact ⟨h.1.2, h.2⟩

/-- Witness for C2 on a one-element queryset holding a pending,
ready-state entity. -/
theorem c2_witness :
    sampleEntity ∈ ModeratedObjectAdmin.queryset [sampleEntity] ∧
    sampleEntity.moderation_status ≠ MODERATION_STATUS_APPROVED ∧
    sampleEntity.moderation_state ≠ MODERATION_DRAFT_STATE :=
  ⟨by decide, c2_queryset_excludes [sampleEntity] sampleEntity (by decide)⟩

/-- C3: rejecting with an empty reason always fails with ValidationError,
rejecting with the reason spam always succeeds and sets the entity's
reason to spam, and the bulk reject_objects action passes no reason, so
its first reject call fails with ValidationError, the error propagates,
and no transition is applied and no message added. -/
theorem c3_reject_reason_rule (e : ModeratedEntity) (a : String)
    (user : String) (qs : List ModeratedEntity) :
    e.reject a ("")
      = .error (.validationError ("reason is required on reject")) ∧
    (∃ e' m, e.reject a ("spam") = .ok (e', m) ∧
      e'.moderation_reason = "spam") ∧
    reject_objects user (e :: qs)
      = ([], [], some (.validationError ("reason is required on reject"))) := by
  refine ⟨rfl, ⟨_, _, rfl, rfl⟩, rfl⟩

/-- C4: when the domain object exists but no ModeratedObject record does,
send_message catches the DoesNotExist and delivers exactly the fixed
not-registered message, the same message get_moderation_message produces
with no status. -/
theorem c4_send_message_not_registered
    (unmoderated_get : Nat → Option DomainObject)
    (get_for_instance : DomainObject → Option ModeratedEntity)
    (get_moderator : ModeratedEntity → Moderator)
    (object_id : Nat) (obj : DomainObject)
    (hobj : unmoderated_get object_id = some obj)
    (hmod : get_for_instance obj = none) :
    send_message unmoderated_get get_for_instance get_moderator object_id
      = .ok (some notRegisteredMsg) ∧
    get_moderation_message none ("") false = some notRegisteredMsg := by
  constructor
  · simp only [send_message, hobj, hmod]
    rfl
  · rfl

/-- Witness for C4 with concrete lookups: the object with pk 10 exists at
id 5 and has no ModeratedObject record. -/
theorem c4_witness :
    ((fun _ => some (⟨10⟩ : DomainObject)) 5
      = some (⟨10⟩ : DomainObject)) ∧
    ((fun _ => (none : Option ModeratedEntity)) (⟨10⟩ : DomainObject)
      = none) ∧
    send_message (fun _ => some ⟨10⟩) (fun _ => none)
      (fun _ => ⟨false, []⟩) 5 = .ok (some notRegisteredMsg) ∧
    get_moderation_message none ("") false = some notRegisteredMsg :=
  ⟨rfl, rfl,
   c4_send_message_not_registered (fun _ => some ⟨10⟩) (fun _ => none)
     (fun _ => ⟨false, []⟩) 5 ⟨10⟩ rfl rfl⟩

/-- Helper for C5: approve_objects maps its per-entity approve over the
queryset in order. -/
theorem approve_objects_eq_map (user : String)
    (qs : List ModeratedEntity) :
    approve_objects user qs
      = (qs.map (fun o => (o.approve user ("")).1),
         qs.map (fun o => (o.approve user ("")).2)) := by
  induction qs with
  | nil => rfl
  | cons o rest ih => simp [approve_objects, ih]

/-- C5 counterexample: on the one-entity queryset [sampleEntity] the bulk
reject_objects action adds zero messages, not one message per entity: its
first reject call, made with no reason, fails with ValidationError. -/
theorem c5_counterexample :
    reject_objects ("mod") [sampleEntity]
      = ([], [],
         some (.validationError ("reason is required on reject"))) ∧
    ([] : List String).length ≠ [sampleEntity].length :=
  ⟨rfl, by decide⟩

/-- C5 amended: approve_objects and set_objects_as_pending invoke their
transition exactly once per entity in iteration order, approve_objects
adding exactly one message per entity, with no grouping across the batch;
reject_objects, which passes no reason, has its first reject call fail
with ValidationError, so the error propagates out of the loop with no
transition applied and no message added. -/
theorem c5_bulk_actions (user : String) (qs : List ModeratedEntity)
    (e : ModeratedEntity) :
    (approve_objects user qs).1
      = qs.map (fun o => (o.approve user ("")).1) ∧
    (approve_objects user qs).2
      = qs.map (fun o => (o.approve user ("")).2) ∧
    (approve_objects user qs).2.length = qs.length ∧
    set_objects_as_pending user qs
      = qs.map (fun o => o.set_as_pending user) ∧
    reject_objects user (e :: qs)
      = ([], [],
         some (.validationError ("reason is required on reject"))) := by
  refine ⟨?_, ?_, ?_, rfl, rfl⟩
  · rw [approve_objects_eq_map]
  · rw [approve_objects_eq_map]
  · rw [approve_objects_eq_map]
    simp

/-- C6 counterexample: a valid POST invoking the reject action with the
reason spam does not redirect: the reject branch has no return statement,
so the view falls through and renders the change form. -/
theorem c6_counterexample :
    (ModeratedObjectAdmin.change_view sampleEntity ⟨false, []⟩
        rejectPostRequest).2
      = .ok ([rejectedMsg ("spam")], .rendered) ∧
    AdminResponse.rendered.isRedirect = false :=
  ⟨rfl, rfl⟩

/-- C6 amended: on a valid POST invoking the approve action the view
performs the approve and redirects, to '../' when the user has change
permission and to '../../../' otherwise; on a valid POST invoking the
reject action with a non-empty reason the view performs the reject, adds
its message, and renders the change form without redirecting. -/
theorem c6_approve_redirects (e : ModeratedEntity) (m : Moderator)
    (req : Request) (pd : PostData) (hpost : req.post = some pd)
    (hvalid : pd.valid = true) :
    (pd.has_approve = true →
      (ModeratedObjectAdmin.change_view e m req).2
        = .ok ([approvedMsg],
            .redirect (if req.has_change_permission then "../"
              else "../../../"))) ∧
    (pd.has_approve = false → pd.has_reject = true →
      pd.moderation_reason ≠ "" →
      (ModeratedObjectAdmin.change_view e m req).2
        = .ok ([rejectedMsg pd.moderation_reason], .rendered)) := by
  constructor
  · intro ha
    simp [ModeratedObjectAdmin.change_view, ModeratedObjectAdmin.handle_post,
      hpost, hvalid, ha, ModeratedEntity.approve,
      ModeratedObjectAdmin.response_change]
    cases req.has_change_permission <;> simp
  · intro ha hr hne
    simp [ModeratedObjectAdmin.change_view, ModeratedObjectAdmin.handle_post,
      hpost, hvalid, ha, hr, ModeratedEntity.reject, hne]

/-- Witness for C6 at a concrete valid approve POST by a user with change
permission. -/
theorem c6_witness :
    approvePostRequest.post = some approvePost ∧
    approvePost.valid = true ∧
    approvePost.has_approve = true ∧
    (ModeratedObjectAdmin.change_view sampleEntity ⟨false, []⟩
        approvePostRequest).2
      = .ok ([approvedMsg], .redirect ("../")) := by
  refine ⟨rfl, rfl, rfl, ?_⟩
  have h := (c6_approve_redirects sampleEntity ⟨false, []⟩
    approvePostRequest approvePost rfl rfl).1 rfl
  simpa using h

/-- Helper for C7: looking a key up in a list filtered to drop that key
finds nothing. -/
theorem lookup_filter_self_none (k : String) (l : List (String × String)) :
    List.lookup k (l.filter (fun kv => !(kv.1 == k))) = none := by
  induction l with
  | nil => rfl
  | cons a rest ih =>
      by_cases h : a.1 == k
      · simp [List.filter_cons, h, ih]
      · simp only [List.filter_cons, h, Bool.not_false, if_true]
        rw [List.lookup_cons]
        have hk : ¬ (k == a.1) = true := by
          intro hkk
          have hke : k = a.1 := by simpa using hkk
          exact absurd hke.symm (by simpa using h)
        simp [hk, ih]

/-- C7: the action mapping returned by ModeratedObjectAdmin.get_actions
never contains the bulk delete_selected action, whatever the framework's
default action mapping holds. -/
theorem c7_no_delete_selected (actions : List (String × String)) :
    (ModeratedObjectAdmin.get_actions actions).all
      (fun kv => !(kv.1 == "delete_selected")) = true ∧
    List.lookup ("delete_selected")
      (ModeratedObjectAdmin.get_actions actions) = none := by
  constructor
  · simp only [ModeratedObjectAdmin.get_actions, List.all_eq_true]
    intro kv hkv
    exact (List.mem_filter.mp hkv).2
  · exact lookup_filter_self_none ("delete_selected") actions

/-- C8: the module-load registration pushes exactly one entry onto the
head of the filter registry — the restricted status filter with the
predicate reading the restricted_status_filter attribute with default
false — keeping every pre-existing entry in its original relative order,
and that predicate accepts exactly the fields whose attribute is true. -/
theorem c8_filter_registration (regs : List FilterRegistryEntry)
    (f : Field) :
    register_restricted_status_filter regs
      = (⟨restricted_filter_predicate, "RestrictedStatusFilterSpec"⟩
          :: regs) ∧
    (register_restricted_status_filter regs).length = regs.length + 1 ∧
    (restricted_filter_predicate f = true
      ↔ f.restricted_status_filter = some true) := by
  refine ⟨rfl, rfl, ?_⟩
  cases f with
  | mk attr =>
      cases attr with
      | none => simp [restricted_filter_predicate]
      | some b => cases b <;> simp [restricted_filter_predicate]

/-- C9: the (old, new) pair handed to get_changes_between_models flips
with the policy: with visible_until_rejected, old is the stored
changed_object and new is the live object fetched for the type; without
it, old is the live object and new is the stored changed_object; the
exclude set passed is always the policy's fields_exclude. -/
theorem c9_diff_arguments (e : ModeratedEntity) (m : Moderator)
    (req : Request) :
    (ModeratedObjectAdmin.change_view e m req).1
      = if m.visible_until_rejected then
          ⟨e.changed_object, e.object_for_this_type, m.fields_exclude⟩
        else
          ⟨e.object_for_this_type, e.changed_object, m.fields_exclude⟩ := by
  cases hv : m.visible_until_rejected <;>
    simp [ModeratedObjectAdmin.change_view, hv]

end Moderation
